import Mathlib

/-!
Shallow embedding of the Mancing-Apa rendering core.

Sources embedded here:
* `src/components/FishViewer.tsx` — `generateLowPolyFish` (species dispatch and
  part trees) and the named-part animation step (`animate`, lines 80–90).
* `src/unnamed/part_000` — `SeabedController` (kelp vertex transform in
  `initVegetation`, `setVisible`).
* `src/unnamed/part_001` / `src/unnamed/part_002` — the two `ThreeView`
  variants: the `cast` / `reset` / `setReeling` command API, the weather
  report step of the frame loop, and the casted bobber/line update.

Conventions: machine floats are embedded as `ℚ` where the code only does
field arithmetic and comparisons (cast state, weather clock), and as `ℝ`
where trigonometry is involved (vertex twists, animation formulas).
Library geometry constructors (`THREE.TubeGeometry`, `THREE.ConeGeometry`,
…) are external code; each is embedded as a record of the arguments the
repository passes to it.
-/

namespace Mancing

/-- JS `haystack.includes(needle)` on the underlying character lists:
`true` iff `needle` occurs as a contiguous sublist. -/
def listHasSub (needle : List Char) : List Char → Bool
  | [] => needle.isEmpty
  | c :: rest => needle.isPrefixOf (c :: rest) || listHasSub needle rest

/-- JS `s.includes(sub)` for strings, as used by the species dispatch in
`generateLowPolyFish` (`fish.id.includes('dragon')`, …). -/
def strIncludes (s sub : String) : Bool :=
  listHasSub sub.toList s.toList

/-- The geometry constructor a mesh part was built from, recording the
discrete arguments (segment counts) the source passes.  Scalar sizes are
kept in `Part.dims`, lathe profiles in `Part.profile`. -/
inductive GeoKind
  | tube (tubularSegments radialSegments : Nat)
  | cone (radialSegments : Nat)
  | lathe (profilePoints segments : Nat)
  | box
  | cylinder (radialSegments : Nat)
  | circle (segments : Nat)
  | icosahedron
  | shapeFin
  | group
deriving DecidableEq

/-- One named node of a generated fish group: `name` is the `THREE.Object3D`
name (`""` unless the source assigns one), `kind` the geometry constructor,
`pos`/`rot`/`scale` the object transform set by the source, `geoRot` the
baked-in geometry rotation (`geo.rotateX(…)` etc., in application order
X,Y,Z as used by the source), `dims` the scalar constructor arguments and
`profile` the 2D lathe profile points. -/
structure Part where
  name : String := ""
  kind : GeoKind
  pos : ℝ × ℝ × ℝ := (0, 0, 0)
  rot : ℝ × ℝ × ℝ := (0, 0, 0)
  geoRot : ℝ × ℝ × ℝ := (0, 0, 0)
  scale : ℝ × ℝ × ℝ := (1, 1, 1)
  dims : List ℝ := []
  profile : List (ℝ × ℝ) := []

/-- Control points of the sea-dragon body spline
(`new THREE.CatmullRomCurve3([...])`, FishViewer.tsx lines 254–259). -/
noncomputable def dragonPath : List (ℝ × ℝ × ℝ) :=
  [(0, 0, 1.5), (0, -0.3, 0.5), (0, 0.3, -0.5), (0, 0, -1.5)]

/-- Sea-dragon branch (`fish.id.includes('dragon')`).  `leafPt i` stands for
`path.getPointAt(i/4)`, the arc-length evaluation of the Catmull-Rom spline
performed inside the THREE library. -/
noncomputable def dragonParts (leafPt : ℕ → ℝ × ℝ × ℝ) : List Part :=
  { kind := .tube 12 4, dims := [0.2] } ::
  { kind := .cone 4, dims := [0.2, 0.8], geoRot := (-(Real.pi/2), 0, 0),
    pos := (0, 0.1, 1.6) } ::
  (List.range 5).map (fun i =>
    { kind := .circle 3, dims := [0.2],
      pos := ((leafPt i).1, (leafPt i).2.1 + 0.15, (leafPt i).2.2),
      rot := (0, 0, if i % 2 == 0 then 0.5 else -0.5) })

/-- Shark/megalodon branch (`'cosmic'` or `'shark'`). -/
noncomputable def sharkParts : List Part :=
  [ { kind := .lathe 5 6, geoRot := (Real.pi/2, 0, 0), scale := (1, 1, 0.8),
      profile := [(0, 2.5), (0.5, 1.5), (0.7, 0.5), (0.4, -1.5), (0, -3.0)] },
    { kind := .shapeFin, dims := [0.8, 0.8], rot := (0, -(Real.pi/2), -(Real.pi/4)),
      pos := (0, 0.6, 0.2) },
    { name := "Tail", kind := .group, pos := (0, 0, -2.8) },
    { kind := .icosahedron, dims := [0.08], pos := (0.35, 0.2, 1.8) },
    { kind := .icosahedron, dims := [0.08], pos := (-0.35, 0.2, 1.8) } ]

/-- Dunkleosteus branch (`'ancient'` or `'dunkle'`). -/
noncomputable def dunkleParts : List Part :=
  [ { kind := .box, dims := [1.2, 1.2, 1.4], pos := (0, 0, 0.8) },
    { kind := .cone 5, dims := [0.6, 2.5], geoRot := (-(Real.pi/2), 0, 0),
      pos := (0, 0, -1.2) },
    { name := "Tail", kind := .group, pos := (0, 0, -2.5) } ]

/-- Arowana branch (`'rare'` or `'arowana'`). -/
noncomputable def arowanaParts : List Part :=
  [ { kind := .lathe 4 4, geoRot := (Real.pi/2, 0, Real.pi/4),
      scale := (0.6, 1.2, 1.0),
      profile := [(0, 2.0), (0.4, 1.0), (0.4, -1.0), (0, -2.0)] },
    { kind := .icosahedron, dims := [0.06], pos := (0.25, 0.1, 1.6) },
    { kind := .icosahedron, dims := [0.06], pos := (-0.25, 0.1, 1.6) },
    { name := "Tail", kind := .group, pos := (0, 0, -2.0) } ]

/-- Coelacanth branch (`'legend'` or `'coelacanth'`). -/
noncomputable def coelacanthParts : List Part :=
  [ { kind := .lathe 5 8, geoRot := (Real.pi/2, 0, 0),
      profile := [(0, 1.5), (0.6, 0.5), (0.6, -0.5), (0.3, -1.5), (0, -2.0)] },
    { kind := .shapeFin, dims := [0.6, 0.6], rot := (0, -(Real.pi/2), Real.pi),
      pos := (0, -0.5, 0) },
    { name := "Tail", kind := .group, pos := (0, 0, -2.0) } ]

/-- Generic fallback branch (no keyword matched). -/
noncomputable def genericParts : List Part :=
  [ { kind := .cone 6, dims := [0.5, 1.5], geoRot := (Real.pi/2, 0, 0),
      pos := (0, 0, 0.75) },
    { kind := .cone 6, dims := [0.5, 1.5], geoRot := (-(Real.pi/2), 0, 0),
      pos := (0, 0, -0.75) },
    { name := "Tail", kind := .group, pos := (0, 0, -1.5) },
    { name := "FinL", kind := .shapeFin, dims := [0.5, 0.5],
      pos := (0.4, -0.2, 0.5), rot := (0, -(Real.pi/2), -(Real.pi/3)) },
    { name := "FinR", kind := .shapeFin, dims := [0.5, 0.5],
      pos := (-0.4, -0.2, 0.5), rot := (0, -(Real.pi/2), Real.pi/3) },
    { kind := .icosahedron, dims := [0.08], pos := (0.3, 0.1, 1.0) },
    { kind := .icosahedron, dims := [0.08], pos := (-0.3, 0.1, 1.0) } ]

/-- `generateLowPolyFish` (FishViewer.tsx lines 210–464): priority-ordered
keyword dispatch on `fish.id` via `includes`, falling through to the
generic builder.  `leafPt` abstracts the THREE spline evaluation used only
by the dragon branch. -/
noncomputable def generateLowPolyFish (leafPt : ℕ → ℝ × ℝ × ℝ)
    (id : String) : List Part :=
  if strIncludes id "dragon" then dragonParts leafPt
  else if strIncludes id "cosmic" || strIncludes id "shark" then sharkParts
  else if strIncludes id "ancient" || strIncludes id "dunkle" then dunkleParts
  else if strIncludes id "rare" || strIncludes id "arowana" then arowanaParts
  else if strIncludes id "legend" || strIncludes id "coelacanth" then
    coelacanthParts
  else genericParts

/-- Placeholder spline evaluation used to instantiate `leafPt` in closed
statements; the claims never depend on leaf positions. -/
noncomputable def lp0 : ℕ → ℝ × ℝ × ℝ := fun _ => (0, 0, 0)

/-- Nonempty node names of a generated group, in order. -/
def namesOf (ps : List Part) : List String :=
  (ps.filter (fun p => !(p.name == ""))).map Part.name

/-- `group.getObjectByName nm` would find a node: some part carries `nm`. -/
def hasPart (nm : String) (ps : List Part) : Bool :=
  ps.any (fun p => p.name == nm)

/-- Apply `f` to the first part named `nm` (the node `getObjectByName`
returns); leaves the list unchanged when none matches. -/
def updFirst (nm : String) (f : Part → Part) : List Part → List Part
  | [] => []
  | p :: ps => if p.name == nm then f p :: ps else p :: updFirst nm f ps

/-- `node.rotation.y = v` on the first part named `nm`. -/
def setRotY (nm : String) (v : ℝ) : List Part → List Part :=
  updFirst nm (fun p => { p with rot := (p.rot.1, v, p.rot.2.2) })

/-- `node.rotation.z = v` on the first part named `nm`. -/
def setRotZ (nm : String) (v : ℝ) : List Part → List Part :=
  updFirst nm (fun p => { p with rot := (p.rot.1, p.rot.2.1, v) })

/-- Tail phase of the FishViewer animation step (lines 81–84): look up
`"Tail"`; if present set its y rotation, otherwise do nothing. -/
noncomputable def tailStep (t : ℝ) (ps : List Part) : List Part :=
  if hasPart "Tail" ps then setRotY "Tail" (Real.sin (t * 6) * 0.25) ps
  else ps

/-- Fin phase of the FishViewer animation step (lines 85–90): look up
`"FinL"` and `"FinR"`; only when **both** are present set their z
rotations, otherwise do nothing. -/
noncomputable def finStep (t : ℝ) (ps : List Part) : List Part :=
  if hasPart "FinL" ps && hasPart "FinR" ps then
    setRotZ "FinR" (-(Real.pi/3) - Real.sin (t * 10) * 0.15)
      (setRotZ "FinL" (Real.pi/3 + Real.sin (t * 10) * 0.15) ps)
  else ps

/-- The named-part section of the per-frame `animate` in FishViewer.tsx
(lines 80–90): tail phase, then fin phase. -/
noncomputable def animateNamedParts (t : ℝ) (ps : List Part) : List Part :=
  finStep t (tailStep t ps)

/-! ## Kelp vertex transform (`SeabedController.initVegetation`,
src/unnamed/part_000 lines 146–163)

A stalk is a `THREE.PlaneGeometry(2, height, 1, 4)` whose vertex heights
`y` range over `[-height/2, height/2]`.  The loop computes
`angle = (y / height) * π`, rotates `(x, z)` by `angle` about the growth
(y) axis, and writes back `y + height/2` as the new height. -/

/-- The twist angle the source applies to the vertex at original height
`y` of a stalk of height `H`: `angle = (y / height) * Math.PI`. -/
noncomputable def kelpAngle (H y : ℝ) : ℝ := (y / H) * Real.pi

/-- Rotation of `(x, z)` by `a` about the y axis, as in the source:
`cx = x*cos(angle) - z*sin(angle)`, `cz = x*sin(angle) + z*cos(angle)`. -/
noncomputable def rotXZ (a x z : ℝ) : ℝ × ℝ :=
  (x * Real.cos a - z * Real.sin a, x * Real.sin a + z * Real.cos a)

/-- The full per-vertex kelp transform of `initVegetation`:
`pos.setXYZ(v, cx, y + height/2, cz)`. -/
noncomputable def kelpVertex (H x y z : ℝ) : ℝ × ℝ × ℝ :=
  ((rotXZ (kelpAngle H y) x z).1, y + H / 2, (rotXZ (kelpAngle H y) x z).2)

/-- The transform the claim describes: the vertex at parametric height
fraction `f = (y + H/2) / H` (0 at the base row, 1 at the tip row) is
rotated by `f * π` about the growth axis, then re-pivoted. -/
noncomputable def kelpVertexClaimed (H x y z : ℝ) : ℝ × ℝ × ℝ :=
  ((rotXZ (((y + H / 2) / H) * Real.pi) x z).1, y + H / 2,
   (rotXZ (((y + H / 2) / H) * Real.pi) x z).2)

/-- The amended transform: the vertex at fraction `f` is rotated by
`(f - 1/2) * π` (so `-π/2` at the base and `+π/2` at the tip, a total
twist of `π` proportional to height fraction), then re-pivoted. -/
noncomputable def kelpVertexAmended (H x y z : ℝ) : ℝ × ℝ × ℝ :=
  ((rotXZ (((y + H / 2) / H - 1 / 2) * Real.pi) x z).1, y + H / 2,
   (rotXZ (((y + H / 2) / H - 1 / 2) * Real.pi) x z).2)

/-! ## Seabed visibility (src/unnamed/part_000 and part_002) -/

/-- `SeabedController`'s scene-graph root, reduced to the one flag the
claims read.  A fresh `THREE.Group` is visible by default. -/
structure SeabedGroup where
  visible : Bool
deriving DecidableEq

/-- The controller's group right after `new SeabedController()`. -/
def SeabedGroup.init : SeabedGroup := ⟨true⟩

/-- `SeabedController.setVisible` (part_000 lines 183–185):
`this.group.visible = visible`. -/
def SeabedGroup.setVisible (v : Bool) (_s : SeabedGroup) : SeabedGroup := ⟨v⟩

/-- One full scene build of the map-aware `ThreeView` (part_002): the
mount effect constructs the `SeabedController`, then the map effect
(lines 391–396) runs `seabedCtrl.setVisible(map === 'atlantis')`.  The
map selector is embedded as its runtime string value. -/
def buildSceneSeabed (map : String) : SeabedGroup :=
  SeabedGroup.setVisible (map == "atlantis") SeabedGroup.init

/-! ## Cast / reset / setReeling command API
(src/unnamed/part_001 lines 359–383 and src/unnamed/part_002 lines
398–422)

The rod and bobber sub-controllers (`RodController`, `BobberController`)
are repository modules not present under `src/`; their flags are
modelled from the spec: `setReeling(active)` toggles a boolean animation
flag on the rod, `triggerCast` starts the rod's cast animation,
`setVisible` shows/hides the bobber, and the bobber carries a position.
`getTipWorldPosition` is abstracted as the parameter `rodTip`. -/

/-- Observable state of one `ThreeView` instance: `CastState`
(`isCasted`, `targetPos`), the bobber's visibility and position, the
rod's reeling flag, and whether the rod's cast animation was (re-)
triggered. -/
structure ViewState where
  isCasted : Bool
  targetPos : ℚ × ℚ × ℚ
  bobberVisible : Bool
  bobberPos : ℚ × ℚ × ℚ
  reeling : Bool
  castAnim : Bool
deriving DecidableEq

/-- The commands of the `ThreeViewApi`. -/
inductive Cmd
  | cast (distance : ℚ)
  | reset
  | setReeling (reeling : Bool)

namespace V1

/-- `apiRef.current.cast` of the map-less variant (part_001 lines
359–371): set `isCasted`, trigger the rod cast animation, show the
bobber at the rod tip, and set `targetPos = (0, 0, -10 - distance/5)`. -/
def cast (rodTip : ℚ × ℚ × ℚ) (distance : ℚ) (s : ViewState) : ViewState :=
  { s with isCasted := true, castAnim := true, bobberVisible := true,
           bobberPos := rodTip, targetPos := (0, 0, -10 - distance / 5) }

/-- `apiRef.current.reset` (part_001 lines 373–379): clear `isCasted`,
stop reeling, hide the bobber. -/
def reset (s : ViewState) : ViewState :=
  { s with isCasted := false, reeling := false, bobberVisible := false }

/-- `apiRef.current.setReeling` (part_001 lines 381–383). -/
def setReeling (r : Bool) (s : ViewState) : ViewState :=
  { s with reeling := r }

/-- One API command of the map-less variant. -/
def step (rodTip : ℚ × ℚ × ℚ) : Cmd → ViewState → ViewState
  | .cast d => cast rodTip d
  | .reset => reset
  | .setReeling r => setReeling r

/-- A call sequence of API commands, applied left to right. -/
def run (rodTip : ℚ × ℚ × ℚ) (cs : List Cmd) (s : ViewState) : ViewState :=
  cs.foldl (fun s c => step rodTip c s) s

end V1

namespace V2

/-- `apiRef.current.cast` of the map-aware variant (part_002 lines
398–410); textually the same body as the map-less one. -/
def cast (rodTip : ℚ × ℚ × ℚ) (distance : ℚ) (s : ViewState) : ViewState :=
  { s with isCasted := true, castAnim := true, bobberVisible := true,
           bobberPos := rodTip, targetPos := (0, 0, -10 - distance / 5) }

/-- `apiRef.current.reset` (part_002 lines 412–418). -/
def reset (s : ViewState) : ViewState :=
  { s with isCasted := false, reeling := false, bobberVisible := false }

/-- `apiRef.current.setReeling` (part_002 lines 420–422). -/
def setReeling (r : Bool) (s : ViewState) : ViewState :=
  { s with reeling := r }

/-- One API command of the map-aware variant. -/
def step (rodTip : ℚ × ℚ × ℚ) : Cmd → ViewState → ViewState
  | .cast d => cast rodTip d
  | .reset => reset
  | .setReeling r => setReeling r

/-- A call sequence of API commands, applied left to right. -/
def run (rodTip : ℚ × ℚ × ℚ) (cs : List Cmd) (s : ViewState) : ViewState :=
  cs.foldl (fun s c => step rodTip c s) s

end V2

/-! ## Weather report step (part_001 lines 245–253, part_002 lines
272–279)

`WeatherController` itself is not under `src/`; its state type is
modelled from the spec (§3): `weather ∈ {CLEAR, RAIN, STORM, FOG}` and a
numeric clock `time`, embedded as `ℚ`. -/

/-- Modelled from the spec: the weather category enum of `WeatherState`
(spec §3, `enum{CLEAR, RAIN, STORM, FOG}`); the concrete enum lives in
`src/types.ts`, which is not under `src/`. -/
inductive WeatherType
  | CLEAR
  | RAIN
  | STORM
  | FOG
deriving DecidableEq

/-- `lastWeatherReportRef.current`: the weather and integer hour of the
last report delivered to `onWeatherUpdate` (initially `CLEAR`, hour
`-1`). -/
structure WeatherReport where
  weather : WeatherType
  hour : Int
deriving DecidableEq

/-- Initial value of `lastWeatherReportRef` (`{ weather: 'CLEAR',
hour: -1 }`). -/
def WeatherReport.init : WeatherReport := ⟨.CLEAR, -1⟩

/-- The weather-sync block of one frame: compute
`currentHour = Math.floor(weatherState.time)`; if the weather or the
hour differs from the last report, update the ref and fire the callback
(second component `true`); otherwise do nothing. -/
def reportStep (w : WeatherType) (time : ℚ) (last : WeatherReport) :
    WeatherReport × Bool :=
  let currentHour : Int := ⌊time⌋
  if w ≠ last.weather ∨ currentHour ≠ last.hour then
    (⟨w, currentHour⟩, true)
  else (last, false)

/-- Whether the callback fires on each frame of a sequence of
`(weather, time)` frames, threading the report ref through. -/
def reportTrace : List (WeatherType × ℚ) → WeatherReport → List Bool
  | [], _ => []
  | (w, t) :: fs, last =>
    (reportStep w t last).2 :: reportTrace fs (reportStep w t last).1

/-- The report ref after a sequence of frames. -/
def reportAfter : List (WeatherType × ℚ) → WeatherReport → WeatherReport
  | [], last => last
  | (w, t) :: fs, last => reportAfter fs (reportStep w t last).1

/-! ## Casted bobber update (part_001 lines 267–272, part_002 lines
293–297)

While casted, each frame does `position.lerp(targetPos, 0.05)` and then
overwrites `position.y` with
`sin(time*2.5)*0.04 + cos(time*1.5)*0.02 - 0.05`. -/

/-- Componentwise `Vector3.lerp(target, alpha)`:
`pos + (target - pos) * alpha`. -/
noncomputable def lerp3 (pos target : ℝ × ℝ × ℝ) (alpha : ℝ) : ℝ × ℝ × ℝ :=
  (pos.1 + (target.1 - pos.1) * alpha,
   pos.2.1 + (target.2.1 - pos.2.1) * alpha,
   pos.2.2 + (target.2.2 - pos.2.2) * alpha)

/-- The additive bob term `Math.sin(time*2.5)*0.04 +
Math.cos(time*1.5)*0.02`. -/
noncomputable def bobble (t : ℝ) : ℝ :=
  Real.sin (t * 2.5) * 0.04 + Real.cos (t * 1.5) * 0.02

/-- One casted-frame bobber update: lerp toward the target with factor
0.05, then overwrite the y coordinate with `bobble - 0.05`. -/
noncomputable def bobberFrame (t : ℝ) (target pos : ℝ × ℝ × ℝ) :
    ℝ × ℝ × ℝ :=
  let p := lerp3 pos target 0.05
  (p.1, bobble t - 0.05, p.2.2)

/-- Bobber position after a sequence of casted frames at the given
times. -/
noncomputable def bobberRun (target : ℝ × ℝ × ℝ) :
    List ℝ → ℝ × ℝ × ℝ → ℝ × ℝ × ℝ
  | [], pos => pos
  | t :: ts, pos => bobberRun target ts (bobberFrame t target pos)

/-- The y coordinates the bobber shows on each frame of a casted run. -/
noncomputable def bobberYTrace (target : ℝ × ℝ × ℝ) :
    List ℝ → ℝ × ℝ × ℝ → List ℝ
  | [], _ => []
  | t :: ts, pos =>
    (bobberFrame t target pos).2.1 ::
      bobberYTrace target ts (bobberFrame t target pos)

/-- A reachable already-casted state: the bobber has lerped away from the
rod tip toward a previous target. -/
def castedState : ViewState :=
  { isCasted := true, targetPos := (0, 0, -10), bobberVisible := true,
    bobberPos := (0, 0, -5), reeling := false, castAnim := true }

/-- An unnamed sample part, as every non-generic species produces. -/
noncomputable def examplePart : Part := { kind := .cone 6 }

/-! # Theorems -/

/-- Names are untouched by `updFirst` with a rotation-only update. -/
theorem hasPart_updFirst (nm nmq : String) (f : Part → Part)
    (hf : ∀ p, (f p).name = p.name) (ps : List Part) :
    hasPart nm (updFirst nmq f ps) = hasPart nm ps := by
  induction ps with
  | nil => rfl
  | cons p ps ih =>
    by_cases hp : p.name == nmq
    · simp [updFirst, hp, hasPart, hf]
    · simp [updFirst, hp, hasPart] at ih ⊢
      rw [ih]

/-- Entries whose name differs from the updated one are preserved
pointwise by `updFirst`. -/
theorem get?_updFirst_of_ne (nm : String) (f : Part → Part)
    (ps : List Part) (i : ℕ) (p : Part) (hp : ps.get? i = some p)
    (hname : p.name ≠ nm) : (updFirst nm f ps).get? i = some p := by
  induction ps generalizing i with
  | nil => simp at hp
  | cons q qs ih =>
    by_cases hq : q.name == nm
    · cases i with
      | zero =>
        simp at hp
        exact absurd (hp ▸ (beq_iff_eq.mp hq)) hname
      | succ j => simpa [updFirst, hq] using hp
    · cases i with
      | zero => simpa [updFirst, hq] using hp
      | succ j =>
        simp only [updFirst, hq, Bool.false_eq_true, if_false,
          List.get?_cons_succ] at *
        exact ih j hp

/-- C6: after one full scene build of the map-aware view, the seabed
group's visibility flag is `true` iff the map selector is `atlantis`;
for every other map value it is `false`. -/
theorem seabed_visible_iff_atlantis (map : String) :
    (buildSceneSeabed map).visible = true ↔ map = "atlantis" := by
  simp [buildSceneSeabed, SeabedGroup.setVisible, SeabedGroup.init]

/-- C4: for every distance `d`, `cast d` followed by `reset` leaves
`isCasted = false`, the bobber hidden and the rod's reeling flag
cleared, in both `ThreeView` variants; and `reset` is safe on any state
(it only clears those three flags, touching nothing else). -/
theorem cast_reset_roundtrip (rodTip : ℚ × ℚ × ℚ) (d : ℚ)
    (s s' : ViewState) :
    (V2.reset (V2.cast rodTip d s)).isCasted = false ∧
    (V2.reset (V2.cast rodTip d s)).bobberVisible = false ∧
    (V2.reset (V2.cast rodTip d s)).reeling = false ∧
    (V1.reset (V1.cast rodTip d s)).isCasted = false ∧
    (V1.reset (V1.cast rodTip d s)).bobberVisible = false ∧
    (V1.reset (V1.cast rodTip d s)).reeling = false ∧
    V2.reset s' = { s' with isCasted := false, reeling := false,
                            bobberVisible := false } ∧
    V1.reset s' = { s' with isCasted := false, reeling := false,
                            bobberVisible := false } :=
  ⟨rfl, rfl, rfl, rfl, rfl, rfl, rfl, rfl⟩

/-- C5 counterexample: with the bobber already lerped to `(0, 0, -5)`
and the rod tip at `(0, 2, 0)`, calling `cast 0` on the already-casted
state does **not** change only the target: it also moves the bobber back
to the rod tip, so the resulting state differs from the state with just
the target replaced. -/
theorem cast_recast_counterexample :
    V2.cast (0, 2, 0) 0 castedState ≠
      { castedState with targetPos := (0, 0, -10 - 0 / 5) } := by
  intro h
  have hb := congrArg ViewState.bobberPos h
  norm_num [V2.cast, castedState, Prod.ext_iff] at hb

/-- C5 (amended): `cast distance` sets `isCasted = true`, sets the
target to `(0, 0, -10 - distance/5)` (a function of the distance only),
makes the bobber visible at the rod-tip world position, and leaves the
reeling flag alone; a repeated `cast` collapses to the last call, but it
re-places the bobber at the rod tip (and re-triggers the cast animation)
rather than leaving everything but the target unchanged. -/
theorem cast_spec (rodTip : ℚ × ℚ × ℚ) (d dq : ℚ) (s : ViewState) :
    (V2.cast rodTip d s).isCasted = true ∧
    (V2.cast rodTip d s).targetPos = (0, 0, -10 - d / 5) ∧
    (V2.cast rodTip d s).bobberVisible = true ∧
    (V2.cast rodTip d s).bobberPos = rodTip ∧
    (V2.cast rodTip d s).castAnim = true ∧
    (V2.cast rodTip d s).reeling = s.reeling ∧
    V2.cast rodTip dq (V2.cast rodTip d s) = V2.cast rodTip dq s :=
  ⟨rfl, rfl, rfl, rfl, rfl, rfl, rfl⟩

/-- C9: the command APIs of the two `ThreeView` variants are
observationally equivalent — every call sequence of `cast`, `reset` and
`setReeling` produces the same observable state in both. -/
theorem api_variants_equivalent (rodTip : ℚ × ℚ × ℚ) (cs : List Cmd)
    (s : ViewState) : V1.run rodTip cs s = V2.run rodTip cs s := by
  induction cs generalizing s with
  | nil => rfl
  | cons c cs ih =>
    have h1 : V1.run rodTip (c :: cs) s =
        V1.run rodTip cs (V1.step rodTip c s) := rfl
    have h2 : V2.run rodTip (c :: cs) s =
        V2.run rodTip cs (V2.step rodTip c s) := rfl
    rw [h1, h2, show V1.step rodTip c s = V2.step rodTip c s from by
      cases c <;> rfl]
    exact ih _

/-- The y trace of a casted bobber run is `bobble t - 0.05` framewise,
whatever the target and start position. -/
theorem bobberYTrace_eq_map (ts : List ℝ) (target pos : ℝ × ℝ × ℝ) :
    bobberYTrace target ts pos =
      ts.map (fun t => Real.sin (t * 2.5) * 0.04 +
        Real.cos (t * 1.5) * 0.02 - 0.05) := by
  induction ts generalizing pos with
  | nil => rfl
  | cons t ts ih => simp [bobberYTrace, bobberFrame, bobble, ih]

/-- C10: while casted, the bobber's y coordinate after each frame's
line-update is `sin(t*2.5)*0.04 + cos(t*1.5)*0.02 - 0.05`, a function of
the frame time alone; two runs that differ only in the cast distance
(hence in `targetPos`, and consequently in the bobber's x/z track)
produce identical y coordinates on every frame. -/
theorem bobber_y_time_only (times : List ℝ)
    (target targetq pos posq : ℝ × ℝ × ℝ) :
    bobberYTrace target times pos =
      times.map (fun t => Real.sin (t * 2.5) * 0.04 +
        Real.cos (t * 1.5) * 0.02 - 0.05) ∧
    bobberYTrace target times pos = bobberYTrace targetq times posq := by
  refine ⟨bobberYTrace_eq_map times target pos, ?_⟩
  rw [bobberYTrace_eq_map, bobberYTrace_eq_map]

/-- C3: a species id matching none of the nine keyword rules falls
through to the generic builder, whose group's named parts are exactly
`Tail`, `FinL`, `FinR`. -/
theorem generic_fallback_names (id : String) (lp : ℕ → ℝ × ℝ × ℝ)
    (h1 : strIncludes id "dragon" = false)
    (h2 : strIncludes id "cosmic" = false)
    (h3 : strIncludes id "shark" = false)
    (h4 : strIncludes id "ancient" = false)
    (h5 : strIncludes id "dunkle" = false)
    (h6 : strIncludes id "rare" = false)
    (h7 : strIncludes id "arowana" = false)
    (h8 : strIncludes id "legend" = false)
    (h9 : strIncludes id "coelacanth" = false) :
    generateLowPolyFish lp id = genericParts ∧
    namesOf (generateLowPolyFish lp id) = ["Tail", "FinL", "FinR"] := by
  have hg : generateLowPolyFish lp id = genericParts := by
    simp [generateLowPolyFish, h1, h2, h3, h4, h5, h6, h7, h8, h9]
  exact ⟨hg, by rw [hg]; rfl⟩

/-- Witness for C3 at the concrete id `"x"`. -/
theorem generic_fallback_names_witness :
    strIncludes "x" "dragon" = false ∧
    (generateLowPolyFish lp0 "x" = genericParts ∧
     namesOf (generateLowPolyFish lp0 "x") = ["Tail", "FinL", "FinR"]) :=
  ⟨by decide, generic_fallback_names "x" lp0 (by decide) (by decide)
    (by decide) (by decide) (by decide) (by decide) (by decide)
    (by decide) (by decide)⟩

/-- C2 counterexample: the sea-dragon builder assigns **no** name to any
part it creates — in particular there is no named head part in the group
generated for the id `"dragon"`. -/
theorem dragon_no_named_part_counterexample :
    ¬ ∃ p ∈ generateLowPolyFish lp0 "dragon", p.name ≠ "" := by
  have h : (generateLowPolyFish lp0 "dragon").all
      (fun p => p.name == "") = true := by rfl
  rintro ⟨p, hp, hne⟩
  exact hne (by simpa using List.all_eq_true.mp h p hp)

/-- C2 (amended): for every id containing `"dragon"`, the generated
group's first part (the body) is a tube with exactly 4 radial segments,
and its second part is a head cone (4 radial segments, unnamed) whose z
coordinate 1.6 lies forward of the body spline's forward terminal
control point z = 1.5. -/
theorem dragon_body_head (id : String) (lp : ℕ → ℝ × ℝ × ℝ)
    (h : strIncludes id "dragon" = true) :
    ((generateLowPolyFish lp id).get? 0).map Part.kind =
      some (.tube 12 4) ∧
    ((generateLowPolyFish lp id).get? 1).map Part.kind = some (.cone 4) ∧
    ((generateLowPolyFish lp id).get? 1).map (fun p => p.pos.2.2) =
      some 1.6 ∧
    (dragonPath.get? 0).map (fun q => q.2.2) = some 1.5 ∧
    (1.5 : ℝ) < 1.6 := by
  have hg : generateLowPolyFish lp id = dragonParts lp := by
    simp [generateLowPolyFish, h]
  rw [hg]
  exact ⟨rfl, rfl, rfl, rfl, by norm_num⟩

/-- Witness for C2 (amended) at the concrete id `"dragon"`. -/
theorem dragon_body_head_witness :
    strIncludes "dragon" "dragon" = true ∧
    (((generateLowPolyFish lp0 "dragon").get? 0).map Part.kind =
       some (.tube 12 4) ∧
     ((generateLowPolyFish lp0 "dragon").get? 1).map Part.kind =
       some (.cone 4) ∧
     ((generateLowPolyFish lp0 "dragon").get? 1).map
         (fun p => p.pos.2.2) = some 1.6 ∧
     (dragonPath.get? 0).map (fun q => q.2.2) = some 1.5 ∧
     (1.5 : ℝ) < 1.6) :=
  ⟨by decide, dragon_body_head "dragon" lp0 (by decide)⟩

/-- C7: an animation step that looks up a named part the builder did not
create is a no-op for that part — the tail phase is skipped when
`"Tail"` is absent, the fin phase is skipped when `"FinL"` or `"FinR"`
is absent, and a part whose name is none of the three looked-up names is
never mutated. -/
theorem animate_missing_noop (t : ℝ) (ps : List Part) :
    (hasPart "Tail" ps = false → animateNamedParts t ps = finStep t ps) ∧
    ((hasPart "FinL" ps = false ∨ hasPart "FinR" ps = false) →
      animateNamedParts t ps = tailStep t ps) ∧
    (∀ i p, ps.get? i = some p → p.name ≠ "Tail" → p.name ≠ "FinL" →
      p.name ≠ "FinR" → (animateNamedParts t ps).get? i = some p) := by
  have hy : ∀ (nm nmq : String) (v : ℝ) (l : List Part),
      hasPart nm (setRotY nmq v l) = hasPart nm l := by
    intro nm nmq v l
    unfold setRotY
    apply hasPart_updFirst
    intro p
    rfl
  have hts : ∀ nm, hasPart nm (tailStep t ps) = hasPart nm ps := by
    intro nm
    unfold tailStep
    split
    · exact hy nm "Tail" _ ps
    · rfl
  refine ⟨?_, ?_, ?_⟩
  · intro h
    unfold animateNamedParts tailStep
    rw [h]
    simp
  · intro h
    unfold animateNamedParts finStep
    rcases h with h | h
    · rw [hts "FinL", h]
      simp
    · rw [hts "FinR", h]
      simp
  · intro i p hp hT hL hR
    have h1 : (tailStep t ps).get? i = some p := by
      unfold tailStep
      split
      · exact get?_updFirst_of_ne _ _ ps i p hp hT
      · exact hp
    unfold animateNamedParts finStep
    split
    · exact get?_updFirst_of_ne _ _ _ i p
        (get?_updFirst_of_ne _ _ _ i p h1 hL) hR
    · exact h1

/-- Witness for C7: on a group with a single unnamed part, the tail
lookup misses and the whole step leaves the group unchanged. -/
theorem animate_missing_noop_witness :
    hasPart "Tail" [examplePart] = false ∧
    animateNamedParts 0 [examplePart] = finStep 0 [examplePart] :=
  ⟨rfl, (animate_missing_noop 0 [examplePart]).1 rfl⟩

/-- C1 counterexample: on a stalk of height 10, the base-row vertex
`(x, y, z) = (1, -5, 0)` (parametric fraction `f = 0`) is **not**
rotated by `f * π = 0` as the claim states: the code rotates it by
`(y/H) * π = -π/2`, sending `x = 1` to `x = 0`. -/
theorem kelp_twist_counterexample :
    kelpVertex 10 1 (-5) 0 ≠ kelpVertexClaimed 10 1 (-5) 0 := by
  have hL : (kelpVertex 10 1 (-5) 0).1 = 0 := by
    have ha : kelpAngle 10 (-5) = -(Real.pi / 2) := by
      unfold kelpAngle
      ring
    simp [kelpVertex, rotXZ, ha, Real.cos_pi_div_two]
  have hR : (kelpVertexClaimed 10 1 (-5) 0).1 = 1 := by
    have ha : (((-5 : ℝ) + 10 / 2) / 10) * Real.pi = 0 := by norm_num
    simp [kelpVertexClaimed, rotXZ, ha]
  intro h
  rw [h, hR] at hL
  exact one_ne_zero hL

/-- C1 (amended): for every stalk height `H > 0`, the vertex at
parametric height fraction `f = (y + H/2)/H` is rotated by
`(f - 1/2) * π` about the growth axis (`-π/2` at the base, `+π/2` at the
tip — a total twist of `π` proportional to height fraction), and after
the re-pivot translation the minimum-height vertex (`y = -H/2`) lies at
height 0, all original vertices landing at height ≥ 0. -/
theorem kelp_twist_repivot (H x y z : ℝ) (hH : 0 < H) :
    kelpVertex H x y z = kelpVertexAmended H x y z ∧
    (kelpVertex H x (-(H / 2)) z).2.1 = 0 ∧
    (-(H / 2) ≤ y → 0 ≤ (kelpVertex H x y z).2.1) := by
  have h0 : H ≠ 0 := ne_of_gt hH
  refine ⟨?_, ?_, ?_⟩
  · have ha : ((y + H / 2) / H - 1 / 2) * Real.pi = kelpAngle H y := by
      unfold kelpAngle
      have : (y + H / 2) / H - 1 / 2 = y / H := by
        field_simp
        ring
      rw [this]
    unfold kelpVertex kelpVertexAmended
    rw [ha]
  · show -(H / 2) + H / 2 = 0
    ring
  · intro hy
    show 0 ≤ y + H / 2
    linarith

/-- Witness for C1 (amended) at `H = 10`, `(x, y, z) = (1, -5, 0)`. -/
theorem kelp_twist_repivot_witness :
    (0 : ℝ) < 10 ∧
    (kelpVertex 10 1 (-5) 0 = kelpVertexAmended 10 1 (-5) 0 ∧
     (kelpVertex 10 1 (-(10 / 2)) 0).2.1 = 0 ∧
     (-((10 : ℝ) / 2) ≤ -5 → 0 ≤ (kelpVertex 10 1 (-5) 0).2.1)) :=
  ⟨by norm_num, kelp_twist_repivot 10 1 (-5) 0 (by norm_num)⟩

/-- C8: across any frame sequence, the weather callback fires on frame
`n` iff that frame's weather category or integer hour differs from the
carried last-report ref, and the ref is rewritten to the fired values
exactly when it fires (so it always holds the last reported pair) —
never firing on a frame where both are unchanged. -/
theorem weather_report_edge (frames : List (WeatherType × ℚ))
    (init : WeatherReport) (n : ℕ) (w : WeatherType) (t : ℚ)
    (h : frames.get? n = some (w, t)) :
    (reportTrace frames init).get? n =
      some (decide (w ≠ (reportAfter (frames.take n) init).weather ∨
        ⌊t⌋ ≠ (reportAfter (frames.take n) init).hour)) ∧
    reportAfter (frames.take (n + 1)) init =
      (if w ≠ (reportAfter (frames.take n) init).weather ∨
          ⌊t⌋ ≠ (reportAfter (frames.take n) init).hour then
        ⟨w, ⌊t⌋⟩ else reportAfter (frames.take n) init) := by
  induction frames generalizing init n with
  | nil => simp at h
  | cons f fs ih =>
    obtain ⟨fw, ft⟩ := f
    cases n with
    | zero =>
      simp only [List.get?_cons_zero, Option.some.injEq, Prod.mk.injEq] at h
      obtain ⟨rfl, rfl⟩ := h
      constructor
      · by_cases hc : fw ≠ init.weather ∨ ⌊ft⌋ ≠ init.hour <;>
          simp [reportTrace, reportAfter, reportStep, hc]
      · by_cases hc : fw ≠ init.weather ∨ ⌊ft⌋ ≠ init.hour <;>
          simp [reportAfter, reportStep, hc]
    | succ m =>
      simp only [List.get?_cons_succ] at h
      simp only [List.take_succ_cons, reportAfter, reportTrace,
        List.get?_cons_succ]
      exact ih (reportStep fw ft init).1 m h

/-- Witness for C8: on the frame sequence
`[(CLEAR, 1/2), (CLEAR, 3/4)]`, frame 1 finds both the weather and the
integer hour unchanged. -/
theorem weather_report_edge_witness :
    ([((WeatherType.CLEAR : WeatherType), (1/2 : ℚ)),
      (WeatherType.CLEAR, 3/4)].get? 1 =
        some (WeatherType.CLEAR, (3/4 : ℚ))) ∧
    ((reportTrace [(WeatherType.CLEAR, 1/2), (WeatherType.CLEAR, 3/4)]
        WeatherReport.init).get? 1 =
      some (decide (WeatherType.CLEAR ≠
        (reportAfter ([((WeatherType.CLEAR : WeatherType), (1/2 : ℚ)),
          (WeatherType.CLEAR, 3/4)].take 1) WeatherReport.init).weather ∨
        ⌊(3/4 : ℚ)⌋ ≠
        (reportAfter ([((WeatherType.CLEAR : WeatherType), (1/2 : ℚ)),
          (WeatherType.CLEAR, 3/4)].take 1) WeatherReport.init).hour)) ∧
     reportAfter ([((WeatherType.CLEAR : WeatherType), (1/2 : ℚ)),
        (WeatherType.CLEAR, 3/4)].take (1 + 1)) WeatherReport.init =
      (if WeatherType.CLEAR ≠
          (reportAfter ([((WeatherType.CLEAR : WeatherType), (1/2 : ℚ)),
            (WeatherType.CLEAR, 3/4)].take 1) WeatherReport.init).weather ∨
          ⌊(3/4 : ℚ)⌋ ≠
          (reportAfter ([((WeatherType.CLEAR : WeatherType), (1/2 : ℚ)),
            (WeatherType.CLEAR, 3/4)].take 1) WeatherReport.init).hour then
        ⟨WeatherType.CLEAR, ⌊(3/4 : ℚ)⌋⟩
      else reportAfter ([((WeatherType.CLEAR : WeatherType), (1/2 : ℚ)),
        (WeatherType.CLEAR, 3/4)].take 1) WeatherReport.init)) :=
  ⟨rfl, weather_report_edge
    [(WeatherType.CLEAR, 1/2), (WeatherType.CLEAR, 3/4)]
    WeatherReport.init 1 WeatherType.CLEAR (3/4) rfl⟩

end Mancing
